import Mathlib

/-!
Shallow embedding of the NextEVI voice React SDK conversation core.

The definitions below are translated from the repository source:
* `voiceReducer`, the provider event handlers (`onStateChange`,
  `onTranscription`, `onLLMChunk`, `onEmotion`, `onInterruption`,
  `onTurnComplete`, `onIdleWarning`, ...), `cleanup` and `disconnect`
  come from the `VoiceProvider` component (src/unnamed/part_007).
* `WSState`, `setConnectionState`, `handleClose`, `attemptReconnection`,
  `routeMessage`, `handleMessage` and `WebSocketManager.disconnect`
  come from the `WebSocketManager` class (src/unnamed/part_005).

Modelling conventions:
* JavaScript numbers on the wire are modelled as `Int` (no claim depends
  on fractional values); JS `x || d` defaulting including its zero /
  empty-string falsiness is modelled by `jsOrNum` / `jsOrStr`.
* `Date.now()` / `new Date()` reads are passed in explicitly as a
  `now : Nat` argument, and `generateMessageId()` results are passed in
  as a `freshId : String` argument (the source generates ids of the form
  `msg_<time>_<random>`, which in particular never start with
  `streaming_`).
* Optional JS object fields are `Option` fields; an absent `metadata`
  object is `none`, mirroring the `?.` accesses of the source.
* Calls into the audio manager (`playTTSChunk`, `clearTTSBuffer`) are
  recorded as emitted `AudioCommand`s; calls into the registered
  `WebSocketEvents` handlers and scheduled reconnect timers are recorded
  as emitted `WSSignal`s.
-/

namespace NextEVI

/-- Model of `ConnectionState` enum from the SDK type declarations. -/
inductive ConnectionState
  | Disconnected
  | Connecting
  | Connected
  | Error
deriving DecidableEq, Repr

/-- Model of `ErrorCode` enum from the SDK type declarations. -/
inductive ErrorCode
  | CONNECTION_FAILED
  | AUTHENTICATION_FAILED
  | AUDIO_INITIALIZATION_FAILED
  | MICROPHONE_ACCESS_DENIED
  | WEBSOCKET_ERROR
  | INVALID_CONFIG
deriving DecidableEq, Repr

/-- Model of `NextEVIError` (message + code; the untyped `details` payload is
diagnostic only and is not modelled). -/
structure NextEVIError where
  message : String
  code : ErrorCode
deriving DecidableEq, Repr

/-- The `VoiceMessage['type']` union `'user' | 'assistant' | 'system' |
'error' | 'warning'`. -/
inductive MsgType
  | user
  | assistant
  | system
  | error
  | warning
deriving DecidableEq, Repr

/-- Model of `EmotionData` from the SDK types. -/
structure EmotionData where
  emotion : String
  percentage : Int
deriving DecidableEq, Repr

/-- Model of `WordResult` from the SDK types (`end` is a Lean keyword, renamed
`end_`). -/
structure WordResult where
  word : String
  start : Int
  end_ : Int
  confidence : Int
deriving DecidableEq, Repr

/-- Model of `TurnDetectionResult` from the SDK types. -/
structure TurnDetectionResult where
  isComplete : Bool
  confidence : Int
  reasons : List String
  processingTime : Option Int := none
deriving DecidableEq, Repr

/-- The optional `metadata` object carried by `VoiceMessage`; every
field is optional in the source. -/
structure MessageMetadata where
  confidence : Option Int := none
  emotions : Option (List EmotionData) := none
  isFinal : Option Bool := none
  generationId : Option String := none
  isStreaming : Option Bool := none
  isUtteranceEnd : Option Bool := none
  turnComplete : Option Bool := none
  turnResult : Option TurnDetectionResult := none
  words : Option (List WordResult) := none
  messageType : Option String := none
deriving DecidableEq, Repr

/-- The metadata object with every optional field absent. -/
def MessageMetadata.empty : MessageMetadata := {}

/-- Model of `VoiceMessage` from the SDK types; `timestamp` is the `Date`
creation time as milliseconds. -/
structure VoiceMessage where
  id : String
  type : MsgType
  content : String
  timestamp : Nat
  metadata : Option MessageMetadata := none
deriving DecidableEq, Repr

/-- The `error` field of `VoiceState` is `string | null | undefined` in
the source (initially `undefined`, set to `null` by
`SET_CONNECTION_STATE`). -/
inductive ErrorValue
  | undef
  | null
  | msg (s : String)
deriving DecidableEq, Repr

/-- The `idleWarning` snapshot stored in `VoiceState` by
`SET_IDLE_WARNING` when `active` is true. -/
structure IdleWarningState where
  active : Bool
  timeRemaining : Option Nat := none
  type : Option String := none
deriving DecidableEq, Repr

/-- Model of `ConnectionMetadata` from the SDK types, with the fields as they are
filled in by `handleConnectionMetadata` (wire fields may be absent; the
nested `config: message.config || {}` AudioConfig object is
device-plumbing data and is not modelled). -/
structure ConnectionMetadata where
  connectionId : Option String := none
  status : Option String := none
  projectId : Option String := none
  configId : Option String := none
deriving DecidableEq, Repr

/-- Model of `VoiceState`: the externally observed snapshot owned by the
`voiceReducer`. -/
structure VoiceState where
  readyState : ConnectionState
  messages : List VoiceMessage
  isRecording : Bool
  isTTSPlaying : Bool
  isWaitingForResponse : Bool
  connectionMetadata : Option ConnectionMetadata
  error : ErrorValue
  idleWarning : Option IdleWarningState
deriving DecidableEq, Repr

/-- Model of `initialState` from the VoiceProvider. -/
def initialState : VoiceState :=
  { readyState := ConnectionState.Disconnected
    messages := []
    isRecording := false
    isTTSPlaying := false
    isWaitingForResponse := false
    connectionMetadata := none
    error := ErrorValue.undef
    idleWarning := none }

/-- The `VoiceAction` union dispatched into `voiceReducer`. Where the
reducer body reads `Date.now()` (the `UPDATE_STREAMING_MESSAGE` case),
the time is carried on the action. -/
inductive VoiceAction
  | setConnectionState (s : ConnectionState)
  | setRecording (b : Bool)
  | setTTSPlaying (b : Bool)
  | setWaitingForResponse (b : Bool)
  | addMessage (m : VoiceMessage)
  | updateStreamingMessage (content : String) (ty : MsgType) (now : Nat)
  | finalizeStreamingMessage (id : String) (content : String)
  | updateMessageMetadata (id : String) (metadata : MessageMetadata)
  | addEmotionsToLatestUserMessage (emotions : List EmotionData)
  | clearMessages
  | setConnectionMetadata (m : ConnectionMetadata)
  | setError (e : Option String)
  | setIdleWarning (active : Bool) (timeRemaining : Option Nat) (type : Option String)
  | resetState
deriving DecidableEq, Repr

/-- JS truthiness of `messages[lastIndex].metadata?.isStreaming`. -/
def isStreamingTruthy (m : VoiceMessage) : Bool :=
  (m.metadata.bind (·.isStreaming)).getD false

/-- The streaming message created by the `UPDATE_STREAMING_MESSAGE`
reducer case: `{ id: streaming_<Date.now()>, ..., metadata: { isStreaming: true } }`. -/
def newStreamingMessage (ty : MsgType) (content : String) (now : Nat) : VoiceMessage :=
  { id := s!"streaming_{now}"
    type := ty
    content := content
    timestamp := now
    metadata := some { MessageMetadata.empty with isStreaming := some true } }

/-- JS spread `{...old, ...override}` on metadata objects: fields present
in the override win, everything else is kept. -/
def MessageMetadata.merge (old override : MessageMetadata) : MessageMetadata :=
  { confidence := override.confidence.orElse fun _ => old.confidence
    emotions := override.emotions.orElse fun _ => old.emotions
    isFinal := override.isFinal.orElse fun _ => old.isFinal
    generationId := override.generationId.orElse fun _ => old.generationId
    isStreaming := override.isStreaming.orElse fun _ => old.isStreaming
    isUtteranceEnd := override.isUtteranceEnd.orElse fun _ => old.isUtteranceEnd
    turnComplete := override.turnComplete.orElse fun _ => old.turnComplete
    turnResult := override.turnResult.orElse fun _ => old.turnResult
    words := override.words.orElse fun _ => old.words
    messageType := override.messageType.orElse fun _ => old.messageType }

/-- Predicate of the backwards search in
`ADD_EMOTIONS_TO_LATEST_USER_MESSAGE`:
`msg.type === 'user' && !msg.metadata?.emotions`. -/
def isUserWithoutEmotions (m : VoiceMessage) : Bool :=
  decide (m.type = MsgType.user ∧ (m.metadata.bind (·.emotions)) = none)

/-- Apply `f` to the LAST element of the list satisfying `p`, leaving
everything else unchanged (the effect of the source's
`messages.map((msg, idx) => ...).reverse().find(...)` index update). -/
def attachToLast (p : VoiceMessage → Bool) (f : VoiceMessage → VoiceMessage) :
    List VoiceMessage → List VoiceMessage
  | [] => []
  | x :: xs =>
      if xs.any p then x :: attachToLast p f xs
      else if p x then f x :: xs
      else x :: xs

/-- Model of `voiceReducer` from the VoiceProvider (src/unnamed/part_007). -/
def voiceReducer (state : VoiceState) (action : VoiceAction) : VoiceState :=
  match action with
  | .setConnectionState s =>
      { state with readyState := s, error := ErrorValue.null }
  | .setRecording b => { state with isRecording := b }
  | .setTTSPlaying b => { state with isTTSPlaying := b }
  | .setWaitingForResponse b => { state with isWaitingForResponse := b }
  | .addMessage m => { state with messages := state.messages ++ [m] }
  | .updateStreamingMessage content ty now =>
      match state.messages.getLast? with
      | some last =>
          if last.type = ty ∧ isStreamingTruthy last = true then
            { state with messages :=
                state.messages.dropLast ++ [{ last with content := content, timestamp := now }] }
          else
            { state with messages := state.messages ++ [newStreamingMessage ty content now] }
      | none =>
          { state with messages := state.messages ++ [newStreamingMessage ty content now] }
  | .finalizeStreamingMessage id content =>
      { state with messages := state.messages.map fun msg =>
          if msg.id = id then
            { msg with content := content
                       metadata := some { (msg.metadata.getD {}) with isStreaming := some false } }
          else msg }
  | .updateMessageMetadata id metadata =>
      { state with messages := state.messages.map fun msg =>
          if msg.id = id then
            { msg with metadata := some ((msg.metadata.getD {}).merge metadata) }
          else msg }
  | .addEmotionsToLatestUserMessage emotions =>
      let attach := fun (m : VoiceMessage) =>
        { m with metadata := some { (m.metadata.getD {}) with emotions := some emotions } }
      { state with messages := attachToLast isUserWithoutEmotions attach state.messages }
  | .clearMessages => { state with messages := [] }
  | .setConnectionMetadata m => { state with connectionMetadata := some m }
  | .setError e =>
      { state with error := match e with | some s => ErrorValue.msg s | none => ErrorValue.null }
  | .setIdleWarning active timeRemaining ty =>
      { state with idleWarning :=
          if active then some { active := true, timeRemaining := timeRemaining, type := ty }
          else none }
  | .resetState => initialState

/-- Model of `TranscriptionResult.metadata` as filled in by
`handleTranscriptionMessage`. -/
structure TranscriptionMeta where
  sessionId : Option String := none
  eventType : String := "normal"
  processingTime : Option Int := none
deriving DecidableEq, Repr

/-- Model of `TranscriptionResult` from the SDK types. -/
structure TranscriptionResult where
  transcript : String
  confidence : Int
  isFinal : Bool
  isInterim : Bool
  isSpeechFinal : Option Bool := none
  isUtteranceEnd : Bool := false
  turnComplete : Option Bool := none
  words : Option (List WordResult) := none
  metadata : TranscriptionMeta := {}
deriving DecidableEq, Repr

/-- Model of `TTSChunk` from the SDK types. -/
structure TTSChunk where
  content : String
  chunkId : Option String := none
  isLast : Bool := false
deriving DecidableEq, Repr

/-- Model of `LLMResponseChunk` from the SDK types. -/
structure LLMResponseChunk where
  content : String
  isFinal : Bool
  generationId : Option String := none
  chunkIndex : Option Int := none
deriving DecidableEq, Repr

/-- Model of `InterruptionMessage` (a `tts_interruption` frame has no payload). -/
structure InterruptionMessage where
  content : String := ""
  timestamp : Nat := 0
deriving DecidableEq, Repr

/-- Model of `SystemMessage` from the SDK types. -/
structure SystemMessage where
  content : String
  messageType : String
  timestamp : Nat := 0
deriving DecidableEq, Repr

/-- Model of `TurnCompleteMessage` from the SDK types. -/
structure TurnCompleteMessage where
  turnResult : TurnDetectionResult
  transcript : String
  timestamp : Nat := 0
deriving DecidableEq, Repr

/-- Model of `IdleWarningMessage` from the SDK types. -/
structure IdleWarningMessage where
  timeRemaining : Nat
  warningType : String
  timestamp : Nat := 0
deriving DecidableEq, Repr

/-- Commands issued by the provider to the `AudioManager` collaborator
(`audioManagerRef.current.<...>` calls). -/
inductive AudioCommand
  | playTTSChunk (content : String)
  | clearTTSBuffer
deriving DecidableEq, Repr

/-- Private state of the `WebSocketManager` class: socket and config
presence (`websocket !== null`, `config !== null`), the connection
state, the session `connectionId`, the reconnect counters and the
connect-guard flag. -/
structure WSState where
  hasWebsocket : Bool
  hasConfig : Bool
  connectionState : ConnectionState
  connectionId : Option String
  reconnectAttempts : Nat
  maxReconnectAttempts : Nat
  reconnectDelay : Nat
  isConnecting : Bool
deriving DecidableEq, Repr

/-- Observable effects of the `WebSocketManager`: invocations of the
registered `WebSocketEvents` handlers, plus scheduled reconnect timers
(`setTimeout(..., delay)` inside `attemptReconnection`). -/
inductive WSSignal
  | stateChange (s : ConnectionState)
  | error (e : NextEVIError)
  | transcription (r : TranscriptionResult)
  | ttsChunk (c : TTSChunk)
  | llmChunk (c : LLMResponseChunk)
  | emotion (es : List EmotionData)
  | connectionMetadata (m : ConnectionMetadata)
  | interruption (m : InterruptionMessage)
  | systemMessage (m : SystemMessage)
  | turnComplete (m : TurnCompleteMessage)
  | idleWarning (m : IdleWarningMessage)
  | scheduleReconnect (delayMs : Nat)
deriving DecidableEq, Repr

/-- Model of `setConnectionState` of the `WebSocketManager`: updates the state
and fires `events.onStateChange` only on an actual transition. -/
def setConnectionState (st : ConnectionState) (s : WSState) : WSState × List WSSignal :=
  if s.connectionState ≠ st then ({ s with connectionState := st }, [WSSignal.stateChange st])
  else (s, [])

/-- Model of `attemptReconnection` of the `WebSocketManager` (src/unnamed/part_005,
lines 648-670). -/
def attemptReconnection (s : WSState) : WSState × List WSSignal :=
  if s.maxReconnectAttempts ≤ s.reconnectAttempts ∨ s.hasConfig = false then
    let r := setConnectionState ConnectionState.Error s
    (r.1, r.2 ++ [WSSignal.error ⟨"Maximum reconnection attempts exceeded", ErrorCode.CONNECTION_FAILED⟩])
  else
    let attempts := s.reconnectAttempts + 1
    let delay := s.reconnectDelay * 2 ^ (attempts - 1)
    ({ s with reconnectAttempts := attempts }, [WSSignal.scheduleReconnect delay])

/-- Model of `handleClose` of the `WebSocketManager` (src/unnamed/part_005,
lines 394-415): null the socket, then dispatch on the close code. -/
def handleClose (code : Nat) (reason : String) (s : WSState) : WSState × List WSSignal :=
  let s := { s with hasWebsocket := false }
  if code = 1000 then
    setConnectionState ConnectionState.Disconnected s
  else if 4000 ≤ code then
    let r := setConnectionState ConnectionState.Error s
    (r.1, r.2 ++ [WSSignal.error ⟨s!"Connection closed: {reason}", ErrorCode.WEBSOCKET_ERROR⟩])
  else
    attemptReconnection s

/-- Model of `WebSocketManager.disconnect` (src/unnamed/part_005, lines 162-178):
reset the connecting flag, deregister the socket handlers and close the
socket, clear the session fields, and force the Disconnected state. -/
def WebSocketManager.disconnect (s : WSState) : WSState × List WSSignal :=
  let s := { s with isConnecting := false }
  let s := if s.hasWebsocket then { s with hasWebsocket := false } else s
  let s := { s with connectionId := none, hasConfig := false, reconnectAttempts := 0 }
  setConnectionState ConnectionState.Disconnected s

/-- JS `x || d` on a (possibly absent) numeric field: `0` is falsy. -/
def jsOrNum (x : Option Int) (d : Int) : Int :=
  match x with
  | some v => if v = 0 then d else v
  | none => d

/-- JS `x || d` on a (possibly absent) `Nat`-valued numeric field. -/
def jsOrNat (x : Option Nat) (d : Nat) : Nat :=
  match x with
  | some v => if v = 0 then d else v
  | none => d

/-- JS `x || d` on a (possibly absent) string field: `""` is falsy. -/
def jsOrStr (x : Option String) (d : String) : String :=
  match x with
  | some s => if s = "" then d else s
  | none => d

/-- The nested `metadata` object of a wire `transcription` frame. -/
structure WireMetadata where
  event_type : Option String := none
deriving DecidableEq, Repr

/-- One entry of `top_emotions` on a wire `emotion_update` frame. -/
structure WireEmotion where
  emotion : String
  percentage : Option Int := none
  confidence : Option Int := none
deriving DecidableEq, Repr

/-- The `turn_result` object of a wire `turn_complete` frame. -/
structure WireTurnResult where
  is_complete : Option Bool := none
  confidence : Option Int := none
  reasons : Option (List String) := none
  processing_time : Option Int := none
deriving DecidableEq, Repr

/-- A parsed inbound JSON control frame (`WebSocketMessage` in the
source is `{ type: string, [key: string]: any }`; the optional fields
collect every wire field the routing handlers read). -/
structure WebSocketMessage where
  type : String
  transcript : Option String := none
  confidence : Option Int := none
  is_final : Option Bool := none
  is_speech_final : Option Bool := none
  words : Option (List WordResult) := none
  metadata : Option WireMetadata := none
  session_id : Option String := none
  processing_time : Option Int := none
  content : Option String := none
  chunk_id : Option String := none
  is_last : Option Bool := none
  generation_id : Option String := none
  chunk_index : Option Int := none
  top_emotions : Option (List WireEmotion) := none
  connection_id : Option String := none
  status : Option String := none
  project_id : Option String := none
  config_id : Option String := none
  error_message : Option String := none
  error_code : Option ErrorCode := none
  message_type : Option String := none
  turn_result : Option WireTurnResult := none
  time_remaining : Option Nat := none
  warning_type : Option String := none
  timestamp : Option Nat := none
deriving DecidableEq, Repr

/-- Model of `handleTranscriptionMessage`: field-level defaulting from the wire
frame into a `TranscriptionResult`. -/
def handleTranscriptionMessage (m : WebSocketMessage) : TranscriptionResult :=
  { transcript := jsOrStr m.transcript ""
    confidence := jsOrNum m.confidence 0
    isFinal := m.is_final.getD false
    isInterim := !(m.is_final.getD false)
    isSpeechFinal := m.is_speech_final
    isUtteranceEnd := decide ((m.metadata.bind (·.event_type)) = some "utterance_end")
    words := m.words
    metadata :=
      { sessionId := m.session_id
        eventType := jsOrStr (m.metadata.bind (·.event_type)) "normal"
        processingTime := m.processing_time } }

/-- Model of `handleTTSChunkMessage`. -/
def handleTTSChunkMessage (m : WebSocketMessage) : TTSChunk :=
  { content := jsOrStr m.content ""
    chunkId := m.chunk_id
    isLast := m.is_last.getD false }

/-- Model of `handleLLMChunkMessage`. -/
def handleLLMChunkMessage (m : WebSocketMessage) : LLMResponseChunk :=
  { content := jsOrStr m.content ""
    isFinal := m.is_final.getD false
    generationId := m.generation_id
    chunkIndex := m.chunk_index }

/-- The per-entry mapping in `handleEmotionMessage`:
`percentage: emotion.percentage || (emotion.confidence ? emotion.confidence * 100 : 0)`. -/
def parseEmotion (e : WireEmotion) : EmotionData :=
  { emotion := e.emotion
    percentage := jsOrNum e.percentage
      (match e.confidence with
       | some c => if c = 0 then 0 else c * 100
       | none => 0) }

/-- Model of `handleEmotionMessage`: parse `top_emotions` and call `onEmotion`
only when at least one emotion was found. -/
def handleEmotionMessage (m : WebSocketMessage) : List WSSignal :=
  let emotions := (m.top_emotions.getD []).map parseEmotion
  if 0 < emotions.length then [WSSignal.emotion emotions] else []

/-- Model of `handleConnectionMetadata`. -/
def handleConnectionMetadata (m : WebSocketMessage) : ConnectionMetadata :=
  { connectionId := m.connection_id
    status := m.status
    projectId := m.project_id
    configId := m.config_id }

/-- Model of `handleErrorMessage`. -/
def handleErrorMessage (m : WebSocketMessage) : NextEVIError :=
  { message := jsOrStr m.error_message "Unknown server error"
    code := m.error_code.getD ErrorCode.WEBSOCKET_ERROR }

/-- Model of `handleInterruptionMessage` (src/unnamed/part_005, lines 582-594):
builds the constant-payload interruption event and forwards it to
`events.onInterruption`. -/
def handleInterruptionMessage (m : WebSocketMessage) : InterruptionMessage :=
  { content := ""
    timestamp := m.timestamp.getD 0 }

/-- Model of `handleSystemMessage`. -/
def handleSystemMessage (m : WebSocketMessage) : SystemMessage :=
  { content := jsOrStr m.content ""
    messageType := jsOrStr m.message_type "initial"
    timestamp := m.timestamp.getD 0 }

/-- Model of `handleTurnCompleteMessage`. -/
def handleTurnCompleteMessage (m : WebSocketMessage) : TurnCompleteMessage :=
  { turnResult :=
      { isComplete := (m.turn_result.bind (·.is_complete)).getD false
        confidence := jsOrNum (m.turn_result.bind (·.confidence)) 0
        reasons := (m.turn_result.bind (·.reasons)).getD []
        processingTime := m.turn_result.bind (·.processing_time) }
    transcript := jsOrStr m.transcript ""
    timestamp := m.timestamp.getD 0 }

/-- Model of `handleIdleWarningMessage`. -/
def handleIdleWarningMessage (m : WebSocketMessage) : IdleWarningMessage :=
  { timeRemaining := jsOrNat m.time_remaining 0
    warningType := jsOrStr m.warning_type "warning"
    timestamp := m.timestamp.getD 0 }

/-- Model of `routeMessage` of the `WebSocketManager` (src/unnamed/part_005,
lines 428-491): dispatch on the `type` discriminator; the `status` tag
is debug-logged only, and unknown tags are logged and dropped.  The
routing handlers never touch the manager state; their only effect is
invoking the registered event handlers, returned here as signals. -/
def routeMessage (m : WebSocketMessage) : List WSSignal :=
  if m.type = "transcription" then [WSSignal.transcription (handleTranscriptionMessage m)]
  else if m.type = "tts_chunk" then [WSSignal.ttsChunk (handleTTSChunkMessage m)]
  else if m.type = "llm_response_chunk" then [WSSignal.llmChunk (handleLLMChunkMessage m)]
  else if m.type = "emotion_update" then handleEmotionMessage m
  else if m.type = "connection_metadata" then [WSSignal.connectionMetadata (handleConnectionMetadata m)]
  else if m.type = "error" then [WSSignal.error (handleErrorMessage m)]
  else if m.type = "status" then []
  else if m.type = "tts_interruption" then [WSSignal.interruption (handleInterruptionMessage m)]
  else if m.type = "system_message" then [WSSignal.systemMessage (handleSystemMessage m)]
  else if m.type = "turn_complete" then [WSSignal.turnComplete (handleTurnCompleteMessage m)]
  else if m.type = "idle_warning" then [WSSignal.idleWarning (handleIdleWarningMessage m)]
  else []

/-- Model of `handleMessage` of the `WebSocketManager` (src/unnamed/part_005,
lines 375-392): `JSON.parse` then route; a parse failure (binary or
malformed textual frame) is caught and debug-logged only.  The parse
outcome is passed in as `Option WebSocketMessage` (`none` = failure). -/
def handleMessage (parsed : Option WebSocketMessage) : List WSSignal :=
  match parsed with
  | some m => routeMessage m
  | none => []

/-- The provider-level context of the `VoiceProvider` component: the
`useReducer` state plus the `currentStreamingMessageId` ref and the two
manager refs.  The audio manager is modelled by its presence only (its
internals are device plumbing); the WebSocket manager ref holds a
`WSState` when present. -/
structure ProviderState where
  state : VoiceState
  currentStreamingMessageId : Option String
  audioManager : Bool
  wsManager : Option WSState
deriving DecidableEq, Repr

/-- Model of `dispatch` into the reducer, leaving the refs untouched. -/
def dispatchP (a : VoiceAction) (s : ProviderState) : ProviderState :=
  { s with state := voiceReducer s.state a }

/-- The provider's `addMessage` helper: build a message with a fresh id
and the current time and dispatch `ADD_MESSAGE`. -/
def VoiceProvider.addMessage (ty : MsgType) (content : String)
    (metadata : Option MessageMetadata) (freshId : String) (now : Nat)
    (s : ProviderState) : ProviderState :=
  dispatchP (VoiceAction.addMessage
    { id := freshId, type := ty, content := content, timestamp := now, metadata := metadata }) s

/-- JS `String.prototype.trim`: strip whitespace from both ends.
Modelled structurally over the character list (Lean's own `String.trim`
is defined by well-founded recursion on byte positions and does not
reduce in the kernel). -/
def jsTrim (s : String) : String :=
  String.mk (((s.data.dropWhile Char.isWhitespace).reverse.dropWhile Char.isWhitespace).reverse)

/-- JS truthiness of `result.transcript.trim()`. -/
def nonBlank (t : String) : Bool := !(jsTrim t).isEmpty

/-- Model of `wsEvents.onStateChange` (src/unnamed/part_007, lines 244-256):
set the connection state, then clear the idle warning. -/
def onStateChange (cs : ConnectionState) (s : ProviderState) : ProviderState :=
  let s := dispatchP (VoiceAction.setConnectionState cs) s
  dispatchP (VoiceAction.setIdleWarning false none none) s

/-- Model of `wsEvents.onTranscription` (src/unnamed/part_007, lines 258-294). -/
def onTranscription (result : TranscriptionResult) (freshId : String) (now : Nat)
    (s : ProviderState) : ProviderState :=
  let s :=
    if nonBlank result.transcript then
      dispatchP (VoiceAction.setIdleWarning false none none) s
    else s
  if result.isFinal ∧ nonBlank result.transcript then
    let s := VoiceProvider.addMessage MsgType.user result.transcript
      (some { MessageMetadata.empty with
                confidence := some result.confidence
                isFinal := some true
                isUtteranceEnd := some result.isUtteranceEnd
                turnComplete := result.turnComplete
                words := result.words }) freshId now s
    dispatchP (VoiceAction.setWaitingForResponse true) s
  else if nonBlank result.transcript then
    dispatchP (VoiceAction.updateStreamingMessage result.transcript MsgType.user now) s
  else s

/-- Model of `wsEvents.onTTSChunk` (src/unnamed/part_007, lines 296-305): play the
chunk through the audio manager when one is present and the chunk's
content is truthy. -/
def onTTSChunk (chunk : TTSChunk) (s : ProviderState) : ProviderState × List AudioCommand :=
  if s.audioManager = true ∧ chunk.content ≠ "" then
    (s, [AudioCommand.playTTSChunk chunk.content])
  else (s, [])

/-- Model of `wsEvents.onLLMChunk` (src/unnamed/part_007, lines 307-342). -/
def onLLMChunk (chunk : LLMResponseChunk) (freshId : String) (now : Nat)
    (s : ProviderState) : ProviderState :=
  if chunk.isFinal then
    let s :=
      match s.currentStreamingMessageId with
      | some id =>
          let s := dispatchP (VoiceAction.finalizeStreamingMessage id chunk.content) s
          { s with currentStreamingMessageId := none }
      | none =>
          VoiceProvider.addMessage MsgType.assistant chunk.content
            (some { MessageMetadata.empty with
                      generationId := chunk.generationId
                      isFinal := some true }) freshId now s
    dispatchP (VoiceAction.setWaitingForResponse false) s
  else
    let s :=
      match s.currentStreamingMessageId with
      | some _ => s
      | none => { s with currentStreamingMessageId := some freshId }
    dispatchP (VoiceAction.updateStreamingMessage chunk.content MsgType.assistant now) s

/-- Model of `wsEvents.onEmotion` (src/unnamed/part_007, lines 344-359). -/
def onEmotion (emotions : List EmotionData) (s : ProviderState) : ProviderState :=
  dispatchP (VoiceAction.addEmotionsToLatestUserMessage emotions) s

/-- Model of `wsEvents.onConnectionMetadata`. -/
def onConnectionMetadata (metadata : ConnectionMetadata) (s : ProviderState) : ProviderState :=
  dispatchP (VoiceAction.setConnectionMetadata metadata) s

/-- Model of `wsEvents.onError` (src/unnamed/part_007, lines 369-374). -/
def onError (e : NextEVIError) (freshId : String) (now : Nat)
    (s : ProviderState) : ProviderState :=
  let s := dispatchP (VoiceAction.setError (some e.message)) s
  VoiceProvider.addMessage MsgType.error s!"Error: {e.message}" none freshId now s

/-- Model of `wsEvents.onInterruption` (src/unnamed/part_007, lines 376-383): the
handler dispatches `SET_TTS_PLAYING false` only; it issues no command to
the audio manager. -/
def onInterruption (_ : InterruptionMessage) (s : ProviderState) :
    ProviderState × List AudioCommand :=
  (dispatchP (VoiceAction.setTTSPlaying false) s, [])

/-- Model of `wsEvents.onSystemMessage` (src/unnamed/part_007, lines 385-394). -/
def onSystemMessage (message : SystemMessage) (freshId : String) (now : Nat)
    (s : ProviderState) : ProviderState :=
  VoiceProvider.addMessage MsgType.system message.content
    (some { MessageMetadata.empty with messageType := some message.messageType }) freshId now s

/-- Model of `wsEvents.onTurnComplete` (src/unnamed/part_007, lines 396-414):
find the most recent `user` message; when its content equals the trimmed
transcript, call `addMessage` with the old content and the merged turn
metadata (note: `addMessage` appends a new message). -/
def onTurnComplete (turnMessage : TurnCompleteMessage) (freshId : String) (now : Nat)
    (s : ProviderState) : ProviderState :=
  if turnMessage.transcript ≠ "" ∧ 0 < s.state.messages.length then
    match s.state.messages.reverse.find? (fun msg => decide (msg.type = MsgType.user)) with
    | some lastUserMessage =>
        if lastUserMessage.content = jsTrim turnMessage.transcript then
          VoiceProvider.addMessage MsgType.user lastUserMessage.content
            (some { (lastUserMessage.metadata.getD {}) with
                      turnComplete := some true
                      turnResult := some turnMessage.turnResult }) freshId now s
        else s
    | none => s
  else s

/-- Model of `wsEvents.onIdleWarning` (src/unnamed/part_007, lines 416-439). -/
def onIdleWarning (warning : IdleWarningMessage) (freshId : String) (now : Nat)
    (s : ProviderState) : ProviderState :=
  let s := dispatchP (VoiceAction.setIdleWarning true (some warning.timeRemaining)
    (some warning.warningType)) s
  let t := warning.timeRemaining
  let warningText :=
    if warning.warningType = "final_warning" then
      s!"Final warning: Connection will end in {t} seconds"
    else
      s!"Idle warning: {t} seconds remaining"
  VoiceProvider.addMessage MsgType.warning warningText
    (some { MessageMetadata.empty with
              messageType := some (if warning.warningType = "final_warning" then "hangup" else "warning") })
    freshId now s

/-- Deliver one `WSSignal` to the provider's registered `wsEvents`
handler (scheduled reconnect timers are not provider events). -/
def processSignal (freshId : String) (now : Nat) (s : ProviderState) (sig : WSSignal) :
    ProviderState × List AudioCommand :=
  match sig with
  | .stateChange cs => (onStateChange cs s, [])
  | .error e => (onError e freshId now s, [])
  | .transcription r => (onTranscription r freshId now s, [])
  | .ttsChunk c => onTTSChunk c s
  | .llmChunk c => (onLLMChunk c freshId now s, [])
  | .emotion es => (onEmotion es s, [])
  | .connectionMetadata md => (onConnectionMetadata md s, [])
  | .interruption im => onInterruption im s
  | .systemMessage sm => (onSystemMessage sm freshId now s, [])
  | .turnComplete tm => (onTurnComplete tm freshId now s, [])
  | .idleWarning iw => (onIdleWarning iw freshId now s, [])
  | .scheduleReconnect _ => (s, [])

/-- Deliver a list of signals in order, collecting audio commands. -/
def processSignals (freshId : String) (now : Nat) (s : ProviderState) :
    List WSSignal → ProviderState × List AudioCommand
  | [] => (s, [])
  | sig :: rest =>
      let r := processSignal freshId now s sig
      let r' := processSignals freshId now r.1 rest
      (r'.1, r.2 ++ r'.2)

/-- The provider's `cleanup` (src/unnamed/part_007, lines 620-638): tear
down the audio manager, disconnect and drop the WebSocket manager (whose
synchronous `onStateChange` callback feeds back into the provider),
clear the recording / TTS / waiting flags, and null the streaming-id
ref. -/
def cleanup (s : ProviderState) : ProviderState :=
  let s := { s with audioManager := false }
  let s :=
    match s.wsManager with
    | some w =>
        let r := WebSocketManager.disconnect w
        let s' := r.2.foldl (fun acc sig =>
          match sig with
          | WSSignal.stateChange cs => onStateChange cs acc
          | _ => acc) s
        { s' with wsManager := none }
    | none => s
  let s := dispatchP (VoiceAction.setRecording false) s
  let s := dispatchP (VoiceAction.setTTSPlaying false) s
  let s := dispatchP (VoiceAction.setWaitingForResponse false) s
  { s with currentStreamingMessageId := none }

/-- The provider's `disconnect` (src/unnamed/part_007, lines 606-617):
`cleanup` followed by `RESET_STATE`. -/
def VoiceProvider.disconnect (s : ProviderState) : ProviderState :=
  dispatchP VoiceAction.resetState (cleanup s)

/-! ### Derived runs, signal filters and concrete scenario inputs -/

/-- Iterate `handleClose` over consecutive close events with the same
code, collecting every emitted signal in order. -/
def closeSeq (code : Nat) (reason : String) : Nat → WSState → WSState × List WSSignal
  | 0, s => (s, [])
  | n + 1, s =>
      let r := handleClose code reason s
      let r' := closeSeq code reason n r.1
      (r'.1, r.2 ++ r'.2)

/-- Recognise the `MaxReconnectExceeded` signal emitted by
`attemptReconnection` when the cap is exceeded. -/
def isMaxReconnectError (sig : WSSignal) : Bool :=
  match sig with
  | WSSignal.error e =>
      decide (e = ⟨"Maximum reconnection attempts exceeded", ErrorCode.CONNECTION_FAILED⟩)
  | _ => false

/-- The errors carried by a signal list, in order. -/
def errorsOf (sigs : List WSSignal) : List NextEVIError :=
  sigs.filterMap fun sig =>
    match sig with
    | WSSignal.error e => some e
    | _ => none

/-- The reconnect delays scheduled by a signal list, in order. -/
def reconnectDelays (sigs : List WSSignal) : List Nat :=
  sigs.filterMap fun sig =>
    match sig with
    | WSSignal.scheduleReconnect d => some d
    | _ => none

/-- The eleven `type` discriminators recognised by `routeMessage`
(`status` is recognised but debug-logged only). -/
def knownMessageTypes : List String :=
  ["transcription", "tts_chunk", "llm_response_chunk", "emotion_update",
   "connection_metadata", "error", "status", "tts_interruption",
   "system_message", "turn_complete", "idle_warning"]

/-- A live connected `WebSocketManager` with the constructor defaults
`maxReconnectAttempts = 3` and reconnect base delay `base`
(`reconnectDelay` defaults to 1000 ms), before any reconnection
attempt. -/
def wsConnected (base : Nat) : WSState :=
  { hasWebsocket := true
    hasConfig := true
    connectionState := ConnectionState.Connected
    connectionId := some "voice_1_abc"
    reconnectAttempts := 0
    maxReconnectAttempts := 3
    reconnectDelay := base
    isConnecting := false }

/-- A freshly mounted provider context with live managers and an empty
conversation. -/
def ps0 : ProviderState :=
  { state := initialState
    currentStreamingMessageId := none
    audioManager := true
    wsManager := some (wsConnected 1000) }

/-- An interim (non-final) transcription event as produced by
`handleTranscriptionMessage`. -/
def interimEvt (t : String) : TranscriptionResult :=
  { transcript := t, confidence := 0, isFinal := false, isInterim := true }

/-- A final transcription event with the given confidence. -/
def finalEvt (t : String) (c : Int) : TranscriptionResult :=
  { transcript := t, confidence := c, isFinal := true, isInterim := false }

/-- Feed a list of (interim transcript, arrival time) pairs through
`wsEvents.onTranscription` (the fresh-id argument is irrelevant on the
interim path, which never calls `addMessage`). -/
def runInterim (s : ProviderState) : List (String × Nat) → ProviderState
  | [] => s
  | (t, n) :: rest => runInterim (onTranscription (interimEvt t) "" n s) rest

/-- The `user` message appended by the final-transcription branch of
`wsEvents.onTranscription` for an event with no utterance-end marker,
turn flag or word timings. -/
def finalUserMessage (t : String) (conf : Int) (fid : String) (now : Nat) : VoiceMessage :=
  { id := fid
    type := MsgType.user
    content := t
    timestamp := now
    metadata := some { MessageMetadata.empty with
                         confidence := some conf
                         isFinal := some true
                         isUtteranceEnd := some false } }

/-- Concrete scenario for streaming coalescing: an interim "hello" at
time 1 followed by a final "hello world" at time 2. -/
def c1run : ProviderState :=
  onTranscription (finalEvt "hello world" 9) "msg_2_abc" 2
    (onTranscription (interimEvt "hello") "msg_1_abc" 1 ps0)

/-- Concrete scenario for LLM finalization: a non-final chunk "Hel" at
time 5 (allocating the fresh streaming id `msg_1_abc`) followed by a
final chunk "Hello." at time 6. -/
def c2run : ProviderState :=
  onLLMChunk { content := "Hello.", isFinal := true } "msg_9_x" 6
    (onLLMChunk { content := "Hel", isFinal := false } "msg_1_abc" 5 ps0)

/-- A backend turn-completion frame whose transcript is "hi". -/
def turnMsg : TurnCompleteMessage :=
  { turnResult := { isComplete := true, confidence := 1, reasons := ["stop"] }
    transcript := "hi" }

/-- A provider context holding one finalized `user` message "hi". -/
def c4base : ProviderState :=
  { ps0 with state := { initialState with messages :=
      [{ id := "m1", type := MsgType.user, content := "hi", timestamp := 1,
         metadata := some { MessageMetadata.empty with isFinal := some true } }] } }

/-- Concrete scenario for turn completion: `turnMsg` delivered on top of
`c4base`. -/
def c4run : ProviderState := onTurnComplete turnMsg "msg_5_z" 7 c4base

/-- A provider context in which TTS audio is currently playing. -/
def psTTS : ProviderState :=
  { ps0 with state := { initialState with isTTSPlaying := true } }

/-- A finalized user message that does not yet carry emotion metadata. -/
def c7user : VoiceMessage :=
  { id := "m1", type := MsgType.user, content := "hi", timestamp := 1,
    metadata := some { MessageMetadata.empty with isFinal := some true } }

/-- An assistant message following `c7user`. -/
def c7assistant : VoiceMessage :=
  { id := "m2", type := MsgType.assistant, content := "yo", timestamp := 2,
    metadata := none }

/-- A provider context holding `c7user` then `c7assistant`. -/
def c7state : ProviderState :=
  { ps0 with state := { initialState with messages := [c7user, c7assistant] } }

/-- A concrete emotion batch. -/
def c7emotions : List EmotionData := [{ emotion := "joy", percentage := 80 }]

/-- A message with the given emotion batch merged into its metadata, as
written by `ADD_EMOTIONS_TO_LATEST_USER_MESSAGE`. -/
def withEmotions (es : List EmotionData) (m : VoiceMessage) : VoiceMessage :=
  { m with metadata := some { (m.metadata.getD {}) with emotions := some es } }

/-- The single streaming user message produced by a run of interim
transcriptions: created at time `n0` from transcript `t0` (fixing its id
as `streaming_<n0>`), last updated to content `c` at time `n`. -/
def coalescedStreaming (t0 : String) (n0 : Nat) (c : String) (n : Nat) : VoiceMessage :=
  { newStreamingMessage MsgType.user t0 n0 with content := c, timestamp := n }

/-! ### Theorems -/

/-- C10: every connection-state-change event, whatever the target state,
sets the pending error to `null` and clears the idle-warning snapshot
(`SET_CONNECTION_STATE` unconditionally writes `error: null`, and
`onStateChange` always follows with an inactive `SET_IDLE_WARNING`). -/
theorem C10_state_change_clears_error_and_idle_warning
    (cs : ConnectionState) (s : ProviderState) :
    (onStateChange cs s).state.error = ErrorValue.null ∧
    (onStateChange cs s).state.idleWarning = none ∧
    (onStateChange cs s).state.readyState = cs := by
  simp [onStateChange, dispatchP, voiceReducer]

/-- C3 (amended): a `tts_interruption` event sets `isTTSPlaying` to
`false` and changes nothing else; in particular the handler issues no
command at all to the audio manager (the playback buffer is NOT
cleared). -/
theorem C3_interruption_clears_flag_only
    (im : InterruptionMessage) (s : ProviderState) :
    (onInterruption im s).1 = { s with state := { s.state with isTTSPlaying := false } } ∧
    (onInterruption im s).2 = [] := by
  simp [onInterruption, dispatchP, voiceReducer]

/-- C3 counterexample: in a state where TTS audio is playing, handling
an interruption does not invoke the audio bridge's clear-playback
operation (`clearTTSBuffer` is never called by this path). -/
theorem C3_no_clear_playback_counterexample :
    ¬ (AudioCommand.clearTTSBuffer ∈ (onInterruption {} psTTS).2) := by
  decide

/-- C1 counterexample: after one non-final transcription "hello" and a
subsequent final transcription "hello world", the log holds TWO user
messages: the original streaming message (id `streaming_1`) is still
marked streaming, and the final event appended a fresh message (id
`msg_2_abc`) instead of finalizing the streaming one. -/
theorem C1_final_does_not_finalize_counterexample :
    c1run.state.messages.length ≠ 1 ∧
    c1run.state.messages.map (·.type) = [MsgType.user, MsgType.user] ∧
    c1run.state.messages.map isStreamingTruthy = [true, false] ∧
    c1run.state.messages.map (·.id) = ["streaming_1", "msg_2_abc"] := by
  decide

/-- C2: evaluation at the failing input. After a non-final LLM chunk
"Hel" (which stores the fresh id `msg_1_abc` in the ref but creates the
message under id `streaming_5`) a final chunk "Hello." dispatches
`FINALIZE_STREAMING_MESSAGE` against the unmatched ref id: the streaming
assistant message keeps its stale content "Hel" and stays marked
streaming, the final text is lost, and only `waitingForResponse` is
cleared. -/
theorem C2_llm_finalize_id_mismatch :
    c2run.state.messages.map (·.id) = ["streaming_5"] ∧
    c2run.state.messages.map (·.content) = ["Hel"] ∧
    c2run.state.messages.map isStreamingTruthy = [true] ∧
    c2run.state.isWaitingForResponse = false ∧
    c2run.currentStreamingMessageId = none := by
  decide

/-- C4: evaluation at the failing input, plus the no-match case. When
the turn-complete transcript "hi" matches the most recent user message,
the handler APPENDS a duplicate user message carrying the turn metadata
(its own comment says "update the message") instead of updating the
existing one; when the transcript matches no user message, the state is
unchanged. -/
theorem C4_turn_complete_appends_duplicate :
    c4run.state.messages.map (·.content) = ["hi", "hi"] ∧
    c4run.state.messages.map (·.type) = [MsgType.user, MsgType.user] ∧
    c4run.state.messages.map (·.id) = ["m1", "msg_5_z"] ∧
    ((c4run.state.messages.getLast?.bind (·.metadata)).bind (·.turnComplete)) = some true ∧
    onTurnComplete { turnMsg with transcript := "bye" } "msg_5_z" 7 c4base = c4base := by
  decide

/-- Whatever the starting context, the provider's `disconnect` tears
everything down to the same quiescent context: reducer state reset to
`initialState`, both manager refs and the streaming-id ref nulled. -/
theorem disconnect_eq_const (s : ProviderState) :
    VoiceProvider.disconnect s =
      { state := initialState, currentStreamingMessageId := none,
        audioManager := false, wsManager := none } := by
  cases hw : s.wsManager with
  | none => simp [VoiceProvider.disconnect, cleanup, hw, dispatchP, voiceReducer]
  | some w =>
      by_cases hb : w.hasWebsocket <;>
      by_cases hd : w.connectionState = ConnectionState.Disconnected <;>
      simp [VoiceProvider.disconnect, cleanup, WebSocketManager.disconnect,
            setConnectionState, onStateChange, dispatchP, voiceReducer, hw, hb, hd]

/-- C8: `disconnect()` is idempotent. A second provider-level disconnect
produces a context identical to the first call's result, and a second
`WebSocketManager.disconnect` neither changes the manager state further
nor fires any signal (no error, not even a state-change event). -/
theorem C8_idempotent_disconnect (s : ProviderState) (w : WSState) :
    VoiceProvider.disconnect (VoiceProvider.disconnect s) = VoiceProvider.disconnect s ∧
    (WebSocketManager.disconnect (WebSocketManager.disconnect w).1).1
      = (WebSocketManager.disconnect w).1 ∧
    (WebSocketManager.disconnect (WebSocketManager.disconnect w).1).2 = [] := by
  refine ⟨by simp [disconnect_eq_const], ?_, ?_⟩ <;>
    by_cases hb : w.hasWebsocket <;>
    by_cases hd : w.connectionState = ConnectionState.Disconnected <;>
    simp [WebSocketManager.disconnect, setConnectionState, hb, hd]

/-- C5: with `maxReconnectAttempts = 3`, four consecutive abnormal
closures (code neither 1000 nor ≥ 4000) leave the manager in the Error
state, fire exactly one `MaxReconnectExceeded` error over the whole run,
and schedule reconnection attempts k = 1, 2, 3 with delays
base·2⁰, base·2¹, base·2². -/
theorem C5_reconnection_bound (base code : Nat) (reason : String)
    (h1 : code ≠ 1000) (h2 : code < 4000) :
    (closeSeq code reason 4 (wsConnected base)).1.connectionState = ConnectionState.Error ∧
    ((closeSeq code reason 4 (wsConnected base)).2.filter isMaxReconnectError).length = 1 ∧
    reconnectDelays (closeSeq code reason 4 (wsConnected base)).2 =
      [base * 2 ^ 0, base * 2 ^ 1, base * 2 ^ 2] := by
  have h2' : ¬ (4000 ≤ code) := by omega
  simp [closeSeq, handleClose, attemptReconnection, setConnectionState, wsConnected,
        h1, h2', reconnectDelays, isMaxReconnectError]

/-- Witness for C5 at base delay 1000 ms and close code 1006. -/
theorem C5_reconnection_bound_witness :
    (1006 : Nat) ≠ 1000 ∧ (1006 : Nat) < 4000 ∧
    ((closeSeq 1006 "abnormal" 4 (wsConnected 1000)).1.connectionState = ConnectionState.Error ∧
     ((closeSeq 1006 "abnormal" 4 (wsConnected 1000)).2.filter isMaxReconnectError).length = 1 ∧
     reconnectDelays (closeSeq 1006 "abnormal" 4 (wsConnected 1000)).2 =
       [1000 * 2 ^ 0, 1000 * 2 ^ 1, 1000 * 2 ^ 2]) :=
  ⟨by decide, by decide, C5_reconnection_bound 1000 1006 "abnormal" (by decide) (by decide)⟩

/-- C6: close-code taxonomy of `handleClose`. Code 1000 transitions to
Disconnected with no error; codes ≥ 4000 transition to Error emitting
exactly one error carrying the server-supplied reason and scheduling no
reconnect; any other code, while attempts remain and a config is held,
leaves the connection state untouched, emits no error, and schedules
exactly one reconnection attempt. -/
theorem C6_close_code_taxonomy (s : WSState) (code : Nat) (reason : String) :
    ((handleClose 1000 reason s).1.connectionState = ConnectionState.Disconnected ∧
      errorsOf (handleClose 1000 reason s).2 = []) ∧
    (4000 ≤ code →
      (handleClose code reason s).1.connectionState = ConnectionState.Error ∧
      errorsOf (handleClose code reason s).2 =
        [⟨s!"Connection closed: {reason}", ErrorCode.WEBSOCKET_ERROR⟩] ∧
      reconnectDelays (handleClose code reason s).2 = []) ∧
    (code ≠ 1000 → code < 4000 →
      s.reconnectAttempts < s.maxReconnectAttempts → s.hasConfig = true →
      (handleClose code reason s).1.connectionState = s.connectionState ∧
      errorsOf (handleClose code reason s).2 = [] ∧
      reconnectDelays (handleClose code reason s).2 =
        [s.reconnectDelay * 2 ^ s.reconnectAttempts]) := by
  refine ⟨?_, fun h4 => ?_, fun h1 h2 hatt hcfg => ?_⟩
  · by_cases hd : s.connectionState = ConnectionState.Disconnected <;>
      simp [handleClose, setConnectionState, errorsOf, hd]
  · have h1 : code ≠ 1000 := by omega
    by_cases he : s.connectionState = ConnectionState.Error <;>
      simp [handleClose, setConnectionState, errorsOf, reconnectDelays, h1, h4, he]
  · have h2' : ¬ (4000 ≤ code) := by omega
    have hatt' : ¬ (s.maxReconnectAttempts ≤ s.reconnectAttempts) := by omega
    simp [handleClose, attemptReconnection, setConnectionState, errorsOf,
          reconnectDelays, h1, h2', hatt', hcfg]

/-- Witness for C6, exercising all three branches: code 1000, code 4001
and code 1006 on a connected manager with attempts remaining. -/
theorem C6_close_code_taxonomy_witness :
    ((handleClose 1000 "bye" (wsConnected 1000)).1.connectionState
        = ConnectionState.Disconnected ∧
      errorsOf (handleClose 1000 "bye" (wsConnected 1000)).2 = []) ∧
    ((handleClose 4001 "bye" (wsConnected 1000)).1.connectionState = ConnectionState.Error ∧
      errorsOf (handleClose 4001 "bye" (wsConnected 1000)).2 =
        [⟨s!"Connection closed: bye", ErrorCode.WEBSOCKET_ERROR⟩] ∧
      reconnectDelays (handleClose 4001 "bye" (wsConnected 1000)).2 = []) ∧
    ((handleClose 1006 "bye" (wsConnected 1000)).1.connectionState
        = (wsConnected 1000).connectionState ∧
      errorsOf (handleClose 1006 "bye" (wsConnected 1000)).2 = [] ∧
      reconnectDelays (handleClose 1006 "bye" (wsConnected 1000)).2 =
        [(wsConnected 1000).reconnectDelay * 2 ^ (wsConnected 1000).reconnectAttempts]) :=
  ⟨(C6_close_code_taxonomy (wsConnected 1000) 4001 "bye").1,
   (C6_close_code_taxonomy (wsConnected 1000) 4001 "bye").2.1 (by decide),
   (C6_close_code_taxonomy (wsConnected 1000) 1006 "bye").2.2
     (by decide) (by decide) (by decide) (by decide)⟩

/-- C9: a frame whose discriminator tag is not recognised produces no
signal at all — routing it invokes no event handler, so the provider's
state (message log included) is untouched and no audio command is
issued; likewise a textual frame that fails to parse as JSON is
swallowed by the catch branch of `handleMessage`. -/
theorem C9_unknown_frame_tolerance (m : WebSocketMessage) (fid : String) (now : Nat)
    (ps : ProviderState) (h : m.type ∉ knownMessageTypes) :
    routeMessage m = [] ∧
    handleMessage none = [] ∧
    processSignals fid now ps (handleMessage (some m)) = (ps, []) := by
  simp only [knownMessageTypes, List.mem_cons, List.not_mem_nil, or_false, not_or] at h
  obtain ⟨h1, h2, h3, h4, h5, h6, h7, h8, h9, h10, h11⟩ := h
  have hr : routeMessage m = [] := by
    simp [routeMessage, h1, h2, h3, h4, h5, h6, h7, h8, h9, h10, h11]
  exact ⟨hr, rfl, by simp [handleMessage, hr, processSignals]⟩

/-- Witness for C9 at the unrecognised tag `"server_heartbeat"`. -/
theorem C9_unknown_frame_tolerance_witness :
    routeMessage { type := "server_heartbeat" } = [] ∧
    handleMessage none = [] ∧
    processSignals "msg_1_a" 3 ps0 (handleMessage (some { type := "server_heartbeat" }))
      = (ps0, []) :=
  C9_unknown_frame_tolerance { type := "server_heartbeat" } "msg_1_a" 3 ps0 (by decide)

/-- Lemma: `attachToLast` is the identity when nothing in the list matches. -/
theorem attachToLast_no_match (p : VoiceMessage → Bool) (f : VoiceMessage → VoiceMessage)
    (l : List VoiceMessage) (h : ∀ x ∈ l, p x = false) :
    attachToLast p f l = l := by
  induction l with
  | nil => rfl
  | cons x xs ih =>
      have hx : p x = false := h x (List.mem_cons_self x xs)
      have hxs : xs.any p = false := by
        simp only [List.any_eq_false]
        intro a ha
        simp [h a (List.mem_cons_of_mem x ha)]
      simp [attachToLast, hxs, hx, ih fun a ha => h a (List.mem_cons_of_mem x ha)]

/-- Lemma: `attachToLast` updates exactly the last matching element. -/
theorem attachToLast_append (p : VoiceMessage → Bool) (f : VoiceMessage → VoiceMessage)
    (pre post : List VoiceMessage) (m : VoiceMessage)
    (hm : p m = true) (hpost : ∀ x ∈ post, p x = false) :
    attachToLast p f (pre ++ m :: post) = pre ++ f m :: post := by
  induction pre with
  | nil =>
      have hpostany : post.any p = false := by
        simp only [List.any_eq_false]
        intro a ha
        simp [hpost a ha]
      simp [attachToLast, hpostany, hm]
  | cons x xs ih =>
      have hany : (xs ++ m :: post).any p = true := by
        simp only [List.any_eq_true]
        exact ⟨m, by simp, hm⟩
      simp [attachToLast, hany, ih]

/-- C7: an `EmotionBatch` attaches its emotions to the most recent user
message without emotion metadata (the last matching message in the log),
leaving every other message in place; and when no user message lacks
emotion metadata (or no user message exists), the event leaves the
entire provider context unchanged. -/
theorem C7_emotion_best_effort (es : List EmotionData) (s s' : ProviderState)
    (pre post : List VoiceMessage) (m : VoiceMessage)
    (hm : isUserWithoutEmotions m = true)
    (hpost : ∀ x ∈ post, isUserWithoutEmotions x = false)
    (hmsgs : s.state.messages = pre ++ m :: post)
    (hall : ∀ x ∈ s'.state.messages, isUserWithoutEmotions x = false) :
    (onEmotion es s).state.messages = pre ++ withEmotions es m :: post ∧
    onEmotion es s' = s' := by
  constructor
  · simp [onEmotion, dispatchP, voiceReducer, hmsgs, withEmotions,
          attachToLast_append _ _ pre post m hm hpost]
  · simp [onEmotion, dispatchP, voiceReducer, attachToLast_no_match _ _ _ hall]

/-- Witness for C7: the batch attaches to `c7user`, and a second batch
delivered after the first leaves the context unchanged. -/
theorem C7_emotion_best_effort_witness :
    (onEmotion c7emotions c7state).state.messages =
      [] ++ withEmotions c7emotions c7user :: [c7assistant] ∧
    onEmotion c7emotions (onEmotion c7emotions c7state) = onEmotion c7emotions c7state :=
  ⟨(C7_emotion_best_effort c7emotions c7state (onEmotion c7emotions c7state)
      [] [c7assistant] c7user (by decide) (by decide) rfl (by decide)).1,
   (C7_emotion_best_effort c7emotions c7state (onEmotion c7emotions c7state)
      [] [c7assistant] c7user (by decide) (by decide) rfl (by decide)).2⟩

/-- Feeding non-blank interim transcriptions into a context whose log is
exactly one streaming user message keeps the log a single message: same
id and metadata, content and timestamp taken from the last event. -/
theorem runInterim_singleton (ts : List (String × Nat)) (m : VoiceMessage)
    (s : ProviderState)
    (hm : m.type = MsgType.user) (hstr : isStreamingTruthy m = true)
    (hts : ∀ p ∈ ts, nonBlank p.1 = true)
    (hmsgs : s.state.messages = [m]) :
    (runInterim s ts).state.messages =
      [{ m with content := (ts.getLast?.getD (m.content, m.timestamp)).1,
                timestamp := (ts.getLast?.getD (m.content, m.timestamp)).2 }] := by
  induction ts generalizing s m with
  | nil => simp [runInterim, hmsgs]
  | cons p rest ih =>
      obtain ⟨t, n⟩ := p
      have hnb : nonBlank t = true := hts (t, n) (List.mem_cons_self _ _)
      have hstep : (onTranscription (interimEvt t) "" n s).state.messages
          = [{ m with content := t, timestamp := n }] := by
        simp [onTranscription, interimEvt, hnb, dispatchP, voiceReducer, hmsgs, hm, hstr]
      have hmain := ih { m with content := t, timestamp := n }
        (onTranscription (interimEvt t) "" n s) hm hstr
        (fun q hq => hts q (List.mem_cons_of_mem _ hq)) hstep
      rw [runInterim]
      cases rest with
      | nil => simpa using hmain
      | cons q qs => simpa [List.getLast?_cons_cons] using hmain

/-- C1 (amended): a sequence of N ≥ 1 consecutive non-final
transcription events with non-blank text, applied from a fresh context,
yields exactly one message in the log — a streaming user message whose
content equals the last event's text.  A subsequent final transcription
event with non-blank text does NOT finalize that message: it appends a
separate user message with a fresh id carrying the final transcript (and
sets `waitingForResponse`), while the earlier streaming message stays in
the log unchanged, still marked streaming. -/
theorem C1_streaming_coalescing_amended (t0 : String) (n0 : Nat)
    (ts : List (String × Nat)) (tf : String) (conf : Int) (fid : String) (nf : Nat)
    (h0 : nonBlank t0 = true)
    (hts : ∀ p ∈ ts, nonBlank p.1 = true)
    (hf : nonBlank tf = true) :
    (runInterim ps0 ((t0, n0) :: ts)).state.messages =
      [coalescedStreaming t0 n0 (ts.getLast?.getD (t0, n0)).1 (ts.getLast?.getD (t0, n0)).2] ∧
    (onTranscription (finalEvt tf conf) fid nf
        (runInterim ps0 ((t0, n0) :: ts))).state.messages =
      [coalescedStreaming t0 n0 (ts.getLast?.getD (t0, n0)).1 (ts.getLast?.getD (t0, n0)).2,
       finalUserMessage tf conf fid nf] ∧
    (onTranscription (finalEvt tf conf) fid nf
        (runInterim ps0 ((t0, n0) :: ts))).state.isWaitingForResponse = true := by
  have hstart : (onTranscription (interimEvt t0) "" n0 ps0).state.messages
      = [newStreamingMessage MsgType.user t0 n0] := by
    simp [onTranscription, interimEvt, h0, dispatchP, voiceReducer, ps0, initialState]
  have hA : (runInterim ps0 ((t0, n0) :: ts)).state.messages =
      [coalescedStreaming t0 n0 (ts.getLast?.getD (t0, n0)).1 (ts.getLast?.getD (t0, n0)).2] := by
    rw [runInterim]
    simpa [coalescedStreaming, newStreamingMessage] using
      runInterim_singleton ts (newStreamingMessage MsgType.user t0 n0)
        (onTranscription (interimEvt t0) "" n0 ps0) rfl
        (by simp [isStreamingTruthy, newStreamingMessage]) hts hstart
  refine ⟨hA, ?_, ?_⟩
  · simp [onTranscription, finalEvt, hf, dispatchP, voiceReducer,
          VoiceProvider.addMessage, finalUserMessage, MessageMetadata.empty, hA]
  · simp [onTranscription, finalEvt, hf, dispatchP, voiceReducer, VoiceProvider.addMessage]

/-- Witness for C1 (amended): interim "hello" at time 1, interim
"hello wor" at time 2, then final "hello world" at time 3. -/
theorem C1_streaming_coalescing_amended_witness :
    (runInterim ps0 [("hello", 1), ("hello wor", 2)]).state.messages =
      [coalescedStreaming "hello" 1 "hello wor" 2] ∧
    (onTranscription (finalEvt "hello world" 9) "msg_3_abc" 3
        (runInterim ps0 [("hello", 1), ("hello wor", 2)])).state.messages =
      [coalescedStreaming "hello" 1 "hello wor" 2,
       finalUserMessage "hello world" 9 "msg_3_abc" 3] ∧
    (onTranscription (finalEvt "hello world" 9) "msg_3_abc" 3
        (runInterim ps0 [("hello", 1), ("hello wor", 2)])).state.isWaitingForResponse = true :=
  C1_streaming_coalescing_amended "hello" 1 [("hello wor", 2)] "hello world" 9 "msg_3_abc" 3
    (by decide) (by decide) (by decide)

end NextEVI
